import Mathlib

/-!
Verification of the Nasta food-delivery order engine against its
natural-language specification.

The definitions below are a shallow embedding of the JavaScript source:

* `calculateDynamicDeliveryFee`, `distanceFeeOf`, `surgeMultiplierOf`
  embed the fee helper of the order controller.
* Money amounts are modelled as rationals (`ℚ`); the source's
  `parseFloat(x.toFixed(2))` rounding-to-two-decimals is `round2`.
* Clock times are the source's `"HH:MM"` strings compared
  lexicographically, exactly as JavaScript compares them.
-/

/-- Delivery-fee tier `{minDistance, maxDistance, rate}` from the venue
fee configuration (`venueConfig.distanceRates`). -/
structure DistanceRate where
  minDistance : ℚ
  maxDistance : ℚ
  rate : ℚ
deriving DecidableEq

/-- Surge window `{startTime, endTime, multiplier}` from
`venueConfig.surgeMultipliers`; times are `"HH:MM"` strings. -/
structure SurgeWindow where
  startTime : String
  endTime : String
  multiplier : ℚ
deriving DecidableEq

/-- Venue fee configuration (`venueDetails.deliveryFee` as read by
`calculateDynamicDeliveryFee` in the food-delivery controller). -/
structure VenueFeeConfig where
  base : ℚ
  distanceRates : List DistanceRate
  surgeMultipliers : List SurgeWindow
  smallOrderThreshold : ℚ
  smallOrderFee : ℚ
  serviceFeePercentage : ℚ
  handlingFee : ℚ
  currency : String
deriving DecidableEq

/-- Fee breakdown subdocument stored in `order.deliveryFee`
(schema `foodDelivery.models.js`; the `breakdown` debug map is kept as an
association list). -/
structure FeeBreakdown where
  base : ℚ
  distanceFee : ℚ
  surgeFee : ℚ
  smallOrderFee : ℚ
  serviceFee : ℚ
  handlingFee : ℚ
  zoneFee : ℚ
  currency : String
  discount : ℚ
  isFree : Bool
  breakdown : List (String × ℚ)
  total : ℚ
deriving DecidableEq

/-- JavaScript `parseFloat(x.toFixed(2))`: round to two decimal places,
ties toward the larger value (ECMA `toFixed` picks the larger candidate). -/
def round2 (q : ℚ) : ℚ := (⌊q * 100 + 1 / 2⌋ : ℚ) / 100

/-- First tier of `distanceRates` containing the distance gives
`rate * distance`; with no matching tier the fee stays `0`
(the `for ... break` loop of `calculateDynamicDeliveryFee`). -/
def distanceFeeOf : List DistanceRate → ℚ → ℚ
  | [], _ => 0
  | r :: rs, d =>
    if r.minDistance ≤ d ∧ d ≤ r.maxDistance then r.rate * d else distanceFeeOf rs d

/-- Lexicographic comparison of character lists by code point, the
order JavaScript uses for `<=` on strings. -/
def charListLe : List Char → List Char → Bool
  | [], _ => true
  | _ :: _, [] => false
  | a :: as, b :: bs =>
    if a.toNat < b.toNat then true
    else if b.toNat < a.toNat then false
    else charListLe as bs

/-- JavaScript `a <= b` on strings. -/
def jsStrLe (a b : String) : Bool := charListLe a.data b.data

/-- First surge window whose `[startTime, endTime]` string interval
contains the current time gives its multiplier, else `1`. -/
def surgeMultiplierOf : List SurgeWindow → String → ℚ
  | [], _ => 1
  | w :: ws, t =>
    if jsStrLe w.startTime t && jsStrLe t w.endTime then w.multiplier
    else surgeMultiplierOf ws t

/-- Embedding of `calculateDynamicDeliveryFee({venueConfig, distance,
currentTime, subtotal})` from the food-delivery controller. -/
def calculateDynamicDeliveryFee (venueConfig : VenueFeeConfig) (distance : ℚ)
    (currentTime : String) (subtotal : ℚ) : FeeBreakdown :=
  let distanceFee := distanceFeeOf venueConfig.distanceRates distance
  let surgeMultiplier := surgeMultiplierOf venueConfig.surgeMultipliers currentTime
  let smallOrderFee :=
    if subtotal < venueConfig.smallOrderThreshold then venueConfig.smallOrderFee else 0
  let serviceFee := subtotal * (venueConfig.serviceFeePercentage / 100)
  let baseFee := venueConfig.base * surgeMultiplier
  let distanceFeeWithSurge := distanceFee * surgeMultiplier
  let total := baseFee + distanceFeeWithSurge + smallOrderFee + serviceFee +
    venueConfig.handlingFee
  { base := round2 venueConfig.base
    distanceFee := round2 distanceFeeWithSurge
    surgeFee := round2 (baseFee * (surgeMultiplier - 1))
    smallOrderFee := round2 smallOrderFee
    serviceFee := round2 serviceFee
    handlingFee := round2 venueConfig.handlingFee
    zoneFee := 0
    currency := venueConfig.currency
    discount := 0
    isFree := false
    breakdown := [("baseFee", round2 baseFee),
      ("distanceFee", round2 distanceFeeWithSurge),
      ("surgeMultiplier", surgeMultiplier),
      ("smallOrderFee", round2 smallOrderFee),
      ("serviceFee", round2 serviceFee),
      ("handlingFee", round2 venueConfig.handlingFee)]
    total := round2 total }

lemma surgeMultiplierOf_eq_one (sw : List SurgeWindow) (t : String)
    (h : ∀ w ∈ sw, (jsStrLe w.startTime t && jsStrLe t w.endTime) = false) :
    surgeMultiplierOf sw t = 1 := by
  induction sw with
  | nil => rfl
  | cons w ws ih =>
    have hw := h w (List.mem_cons_self w ws)
    simp only [surgeMultiplierOf, hw, Bool.false_eq_true, if_false]
    exact ih fun x hx => h x (List.mem_cons_of_mem w hx)

/-- C5: for the scenario-1 venue configuration, distance 3 km, subtotal 10,
and any clock time inside no surge window, the fee calculator returns
`distanceFee = 3`, `smallOrderFee = 2`, `serviceFee = 1`, `total = 12`. -/
theorem feeScenario1 (sw : List SurgeWindow) (t : String)
    (h : ∀ w ∈ sw, (jsStrLe w.startTime t && jsStrLe t w.endTime) = false) :
    (calculateDynamicDeliveryFee ⟨5, [⟨0, 5, 1⟩], sw, 15, 2, 10, 1, "USD"⟩ 3 t 10).distanceFee = 3 ∧
    (calculateDynamicDeliveryFee ⟨5, [⟨0, 5, 1⟩], sw, 15, 2, 10, 1, "USD"⟩ 3 t 10).smallOrderFee = 2 ∧
    (calculateDynamicDeliveryFee ⟨5, [⟨0, 5, 1⟩], sw, 15, 2, 10, 1, "USD"⟩ 3 t 10).serviceFee = 1 ∧
    (calculateDynamicDeliveryFee ⟨5, [⟨0, 5, 1⟩], sw, 15, 2, 10, 1, "USD"⟩ 3 t 10).total = 12 := by
  have hm := surgeMultiplierOf_eq_one sw t h
  simp only [calculateDynamicDeliveryFee, hm, distanceFeeOf]
  norm_num [round2]

/-- C5 witness: the scenario instantiated with an empty surge list and the
clock time 12:00. -/
theorem feeScenario1_witness :
    (calculateDynamicDeliveryFee ⟨5, [⟨0, 5, 1⟩], [], 15, 2, 10, 1, "USD"⟩ 3 "12:00" 10).total
      = 12 :=
  (feeScenario1 [] "12:00" (by simp)).2.2.2

/-- Rational with at most two decimal places: an integer number of cents. -/
def TwoDec (q : ℚ) : Prop := ∃ k : ℤ, q = k / 100

lemma TwoDec.add {a b : ℚ} (ha : TwoDec a) (hb : TwoDec b) : TwoDec (a + b) := by
  obtain ⟨j, hj⟩ := ha
  obtain ⟨k, hk⟩ := hb
  exact ⟨j + k, by rw [hj, hk]; push_cast; ring⟩

lemma round2_twoDec {q : ℚ} (h : TwoDec q) : round2 q = q := by
  obtain ⟨k, hk⟩ := h
  subst hk
  have h100 : ((k : ℚ) / 100) * 100 = (k : ℚ) := by field_simp
  have hfl : ⌊(k : ℚ) + 1 / 2⌋ = k := by
    rw [Int.floor_eq_iff]
    constructor <;> [linarith; linarith]
  rw [round2, h100, hfl]

/-- C6 counterexample: with a surge window of multiplier 2 in force, base 10
and all other fee inputs 0, the returned `total` is 20 but the six named
components of the returned breakdown sum to 30 (`surgeFee` is computed as
`baseFee * (multiplier - 1)` with `baseFee` already surged, while `base` is
reported unsurged, so the surged base is double-counted). -/
theorem feeTotal_ne_component_sum :
    ((calculateDynamicDeliveryFee ⟨10, [], [⟨"00:00", "23:59", 2⟩], 0, 0, 0, 0, "USD"⟩
        0 "12:00" 1).total = 20) ∧
    ¬ ((calculateDynamicDeliveryFee ⟨10, [], [⟨"00:00", "23:59", 2⟩], 0, 0, 0, 0, "USD"⟩
          0 "12:00" 1).total =
        (calculateDynamicDeliveryFee ⟨10, [], [⟨"00:00", "23:59", 2⟩], 0, 0, 0, 0, "USD"⟩
            0 "12:00" 1).base +
        (calculateDynamicDeliveryFee ⟨10, [], [⟨"00:00", "23:59", 2⟩], 0, 0, 0, 0, "USD"⟩
            0 "12:00" 1).distanceFee +
        (calculateDynamicDeliveryFee ⟨10, [], [⟨"00:00", "23:59", 2⟩], 0, 0, 0, 0, "USD"⟩
            0 "12:00" 1).surgeFee +
        (calculateDynamicDeliveryFee ⟨10, [], [⟨"00:00", "23:59", 2⟩], 0, 0, 0, 0, "USD"⟩
            0 "12:00" 1).smallOrderFee +
        (calculateDynamicDeliveryFee ⟨10, [], [⟨"00:00", "23:59", 2⟩], 0, 0, 0, 0, "USD"⟩
            0 "12:00" 1).serviceFee +
        (calculateDynamicDeliveryFee ⟨10, [], [⟨"00:00", "23:59", 2⟩], 0, 0, 0, 0, "USD"⟩
            0 "12:00" 1).handlingFee) := by
  have hs : surgeMultiplierOf [⟨"00:00", "23:59", 2⟩] "12:00" = 2 := by
    simp only [surgeMultiplierOf]
    rw [if_pos (by decide)]
  refine ⟨?_, ?_⟩ <;>
    simp only [calculateDynamicDeliveryFee, hs, distanceFeeOf] <;>
    norm_num [round2]

/-- C6 amended: when the applicable surge multiplier is 1 and every unrounded
component is an exact two-decimal amount, the returned `total` equals the sum
of the six named components of the returned breakdown; with a surge
multiplier other than 1 the identity fails because `surgeFee` double-counts
the surged base (see the counterexample). -/
theorem feeTotal_eq_component_sum_of_no_surge (cfg : VenueFeeConfig) (d : ℚ)
    (t : String) (subtotal : ℚ)
    (hm : surgeMultiplierOf cfg.surgeMultipliers t = 1)
    (hb : TwoDec cfg.base)
    (hd : TwoDec (distanceFeeOf cfg.distanceRates d))
    (hso : TwoDec cfg.smallOrderFee)
    (hsv : TwoDec (subtotal * (cfg.serviceFeePercentage / 100)))
    (hh : TwoDec cfg.handlingFee) :
    (calculateDynamicDeliveryFee cfg d t subtotal).total =
      (calculateDynamicDeliveryFee cfg d t subtotal).base +
      (calculateDynamicDeliveryFee cfg d t subtotal).distanceFee +
      (calculateDynamicDeliveryFee cfg d t subtotal).surgeFee +
      (calculateDynamicDeliveryFee cfg d t subtotal).smallOrderFee +
      (calculateDynamicDeliveryFee cfg d t subtotal).serviceFee +
      (calculateDynamicDeliveryFee cfg d t subtotal).handlingFee := by
  have h0 : TwoDec 0 := ⟨0, by norm_num⟩
  have hso' : TwoDec (if subtotal < cfg.smallOrderThreshold then cfg.smallOrderFee else 0) := by
    split
    · exact hso
    · exact h0
  have hsum : TwoDec (cfg.base + distanceFeeOf cfg.distanceRates d +
      (if subtotal < cfg.smallOrderThreshold then cfg.smallOrderFee else 0) +
      subtotal * (cfg.serviceFeePercentage / 100) + cfg.handlingFee) :=
    (((hb.add hd).add hso').add hsv).add hh
  simp only [calculateDynamicDeliveryFee, hm, mul_one, sub_self, mul_zero]
  rw [round2_twoDec hb, round2_twoDec hd, round2_twoDec hso', round2_twoDec hsv,
    round2_twoDec hh, round2_twoDec h0, round2_twoDec hsum]
  ring

/-- C6 amended witness: the scenario-1 inputs (no surge, exact two-decimal
components) instantiate the amended identity. -/
theorem feeTotal_eq_component_sum_of_no_surge_witness :
    (calculateDynamicDeliveryFee ⟨5, [⟨0, 5, 1⟩], [], 15, 2, 10, 1, "USD"⟩ 3 "12:00" 10).total =
      (calculateDynamicDeliveryFee ⟨5, [⟨0, 5, 1⟩], [], 15, 2, 10, 1, "USD"⟩ 3 "12:00" 10).base +
      (calculateDynamicDeliveryFee ⟨5, [⟨0, 5, 1⟩], [], 15, 2, 10, 1, "USD"⟩ 3 "12:00" 10).distanceFee +
      (calculateDynamicDeliveryFee ⟨5, [⟨0, 5, 1⟩], [], 15, 2, 10, 1, "USD"⟩ 3 "12:00" 10).surgeFee +
      (calculateDynamicDeliveryFee ⟨5, [⟨0, 5, 1⟩], [], 15, 2, 10, 1, "USD"⟩ 3 "12:00" 10).smallOrderFee +
      (calculateDynamicDeliveryFee ⟨5, [⟨0, 5, 1⟩], [], 15, 2, 10, 1, "USD"⟩ 3 "12:00" 10).serviceFee +
      (calculateDynamicDeliveryFee ⟨5, [⟨0, 5, 1⟩], [], 15, 2, 10, 1, "USD"⟩ 3 "12:00" 10).handlingFee :=
  feeTotal_eq_component_sum_of_no_surge _ 3 "12:00" 10 rfl
    ⟨500, by norm_num⟩ (by simp [distanceFeeOf]; exact ⟨300, by norm_num⟩)
    ⟨200, by norm_num⟩ ⟨100, by norm_num⟩ ⟨100, by norm_num⟩

/-!
Order aggregate and its operations.

`Order` and `Driver` carry the fields of `foodDelivery.models.js` and
`deliveryDriver.models.js` that the order-lifecycle operations read or
write. Timestamps are modelled as set/unset flags, ObjectIds as their hex
strings. Each operation runs inside a mongo transaction in the source, so
an error leaves both records unchanged; the embedding returns the updated
records only on success.
-/

/-- The `deliveryStatus` enum of the order schema. -/
inductive DeliveryStatus
  | pending
  | preparing
  | ready
  | dispatched
  | in_transit
  | delivered
  | failed
deriving DecidableEq

/-- The `paymentStatus` enum of the order schema. -/
inductive PaymentStatus
  | pending
  | paid
  | failed
  | refunded
deriving DecidableEq

/-- Longitude/latitude pair. -/
abbrev Coord : Type := ℚ × ℚ

/-- Embedded customer subdocument `{_id, name, email, phone}` stored on the
order by `createFoodDeliveryOrder`. -/
structure CustomerRec where
  id : String
  name : String
  email : String
  phone : String
deriving DecidableEq

/-- Entry of the order's `trackingUpdates` array. -/
structure TrackingUpdate where
  status : DeliveryStatus
  notes : String
  location : Option Coord
  updatedBy : String
deriving DecidableEq

/-- The order aggregate fields the lifecycle operations touch. -/
structure Order where
  customer : CustomerRec
  venue : String
  deliveryStatus : DeliveryStatus
  paymentStatus : PaymentStatus
  deliveryDriver : Option String
  trackingUpdates : List TrackingUpdate
  rating : Option Int
  feedback : Option String
  driverRating : Option Int
  venueRating : Option Int
  cancellationReason : Option String
  cancelledBy : Option String
  cancellationTimeSet : Bool
  actualDeliveryTimeSet : Bool
  isDeleted : Bool
deriving DecidableEq

/-- Delivery-driver fields the order operations touch
(`deliveryDriver.models.js`). -/
structure Driver where
  id : String
  isAvailable : Bool
  isOnDuty : Bool
  status : String
  completedDeliveries : Nat
  currentLocation : Option Coord
deriving DecidableEq

/-- Actors that can reach the `updateOrderStatus` route: a business owner
(the flag tells whether the owner-service-venue lookup chain resolves to
the order's venue) or an authenticated driver. -/
inductive Actor
  | businessOwner (ownsVenue : Bool)
  | driver (driverId : String)
deriving DecidableEq

/-- Typed rejection reasons; each constructor corresponds to one `ApiError`
throw site of the food-delivery controllers. -/
inductive Err
  | invalidStatusValue
  | paymentRequired
  | notAuthorizedOrder
  | businessOwnerGate
  | driverGate
  | invalidTransition
  | notAuthorizedAssign
  | orderNotReady
  | driverUnavailable
  | notAuthorizedCancel
  | notCancellable
  | invalidRating
  | notAuthorizedRate
  | notDelivered
  | alreadyRated
deriving DecidableEq

/-- The `validTransitions` table shared by the controller
`updateOrderStatus` and the model method `updateStatus`. -/
def validTransitions : DeliveryStatus → List DeliveryStatus
  | .pending => [.preparing, .failed]
  | .preparing => [.ready, .failed]
  | .ready => [.dispatched, .failed]
  | .dispatched => [.in_transit, .failed]
  | .in_transit => [.delivered, .failed]
  | .delivered => []
  | .failed => []

/-- The `validDriverTransitions` table of the controller `updateOrderStatus`;
`none` models the table having no entry for the current status (the
JavaScript `validDriverTransitions[s]?.includes(...)` then reads
`undefined` and the request is rejected). -/
def validDriverTransitions : DeliveryStatus → Option (List DeliveryStatus)
  | .ready => some [.dispatched, .failed]
  | .dispatched => some [.in_transit, .failed]
  | .in_transit => some [.delivered, .failed]
  | _ => none

/-- Boolean form of the JavaScript
`validDriverTransitions[current]?.includes(status)` check of the
controller `updateOrderStatus` (an absent table entry reads `undefined`,
which is falsy). -/
def driverGateAllows (current status : DeliveryStatus) : Bool :=
  match validDriverTransitions current with
  | some allowed => decide (status ∈ allowed)
  | none => false

/-- Mongoose renders an embedded subdocument's `toString()` as a brace-
wrapped field listing, not as its `_id`; only the brace-wrapped shape
matters below, never the precise field text. This is the string
`order.customer.toString()` produces in `cancelOrder` and
`submitOrderRating`. -/
def customerToString (c : CustomerRec) : String :=
  "\x7b" ++ (" _id: new ObjectId(" ++ c.id ++ "), name: " ++ c.name ++
    ", email: " ++ c.email ++ ", phone: " ++ c.phone ++ " \x7d")

/-- Status change plus side effects shared by the success path of the
controller `updateOrderStatus`: set `deliveryStatus`, push a tracking
entry, and on `delivered` stamp `actualDeliveryTime` and free the assigned
driver while incrementing its completed-delivery counter. The
`Option Driver` argument is the database record of the order's assigned
driver, if any. -/
def applyStatusUpdate (o : Order) (status : DeliveryStatus) (notes : String)
    (location : Option Coord) (updatedBy : String) (drv : Option Driver) :
    Order × Option Driver :=
  let o' := { o with
    deliveryStatus := status
    trackingUpdates := o.trackingUpdates ++ [⟨status, notes, location, updatedBy⟩]
    actualDeliveryTimeSet :=
      o.actualDeliveryTimeSet || decide (status = DeliveryStatus.delivered) }
  let drv' :=
    if status = .delivered ∧ o.deliveryDriver.isSome then
      drv.map fun d =>
        { d with isAvailable := true, completedDeliveries := d.completedDeliveries + 1 }
    else drv
  (o', drv')

/-- Driver-location update performed by the driver branch of
`updateOrderStatus` when a location is supplied with the request. -/
def locUpdate : Option Coord → Option Driver → Option Driver
  | some loc, drv => drv.map fun d => { d with currentLocation := some loc }
  | none, drv => drv

/-- Embedding of the controller `updateOrderStatus` (PATCH `/:id/status`).
The business-owner/service/venue lookup chain is collapsed into the
actor's `ownsVenue` flag; the order itself is passed in place of the
`findById`. On error the transaction is aborted, so only the success
path returns updated records. -/
def updateOrderStatus (o : Order) (status : DeliveryStatus) (actor : Actor)
    (notes : String) (location : Option Coord) (drv : Option Driver) :
    Except Err (Order × Option Driver) :=
  if status = .pending then .error .invalidStatusValue
  else if status ≠ .failed ∧ o.paymentStatus ≠ .paid then .error .paymentRequired
  else
    match actor with
    | .businessOwner ownsVenue =>
      if ¬ ownsVenue then .error .notAuthorizedOrder
      else if ¬ ((o.deliveryStatus = .pending ∧ status = .preparing) ∨
          (o.deliveryStatus = .preparing ∧ status = .ready) ∨ status = .failed) then
        .error .businessOwnerGate
      else if status ∉ validTransitions o.deliveryStatus then .error .invalidTransition
      else .ok (applyStatusUpdate o status notes location "venue" drv)
    | .driver driverId =>
      if o.deliveryDriver ≠ some driverId then .error .notAuthorizedOrder
      else if ¬ driverGateAllows o.deliveryStatus status then .error .driverGate
      else if status ∉ validTransitions o.deliveryStatus then .error .invalidTransition
      else .ok (applyStatusUpdate o status notes location "driver" (locUpdate location drv))

/-- Embedding of the schema method `updateStatus` of
`foodDelivery.models.js` (the in-transit driver-location ping it issues is
a write to the driver's `currentLocation` only and is not modelled). The
pre-save hook stamps `actualDeliveryTime` on `delivered`. -/
def methodUpdateStatus (o : Order) (newStatus : DeliveryStatus) (updatedBy : String)
    (notes : String) (location : Option Coord) : Except Err Order :=
  if newStatus ∉ validTransitions o.deliveryStatus then .error .invalidTransition
  else .ok { o with
    deliveryStatus := newStatus
    trackingUpdates := o.trackingUpdates ++ [⟨newStatus, notes, location, updatedBy⟩]
    actualDeliveryTimeSet :=
      o.actualDeliveryTimeSet || decide (newStatus = DeliveryStatus.delivered) }

/-- Embedding of the controller `assignDriverToOrder`
(POST `/:id/assign-driver`): the business-owner lookup chain is the
`ownsVenue` flag and the driver `findById` result is passed by value. -/
def assignDriverToOrder (o : Order) (driver : Driver) (ownsVenue : Bool) :
    Except Err (Order × Driver) :=
  if ¬ ownsVenue then .error .notAuthorizedAssign
  else if o.deliveryStatus ≠ .ready then .error .orderNotReady
  else if ¬ (driver.isAvailable ∧ driver.isOnDuty) then .error .driverUnavailable
  else .ok ({ o with deliveryDriver := some driver.id, deliveryStatus := .dispatched },
    { driver with isAvailable := false })

/-- The `isCancellable` virtual of the order schema. -/
def isCancellable (o : Order) : Prop :=
  ¬ o.isDeleted ∧ o.deliveryStatus ≠ .delivered ∧ o.deliveryStatus ≠ .failed ∧
    (o.cancelledBy = none ∨ ¬ o.cancellationTimeSet)

instance (o : Order) : Decidable (isCancellable o) := by
  unfold isCancellable; infer_instance

/-- Embedding of the controller `cancelOrder` (POST `/:id/cancel`). The
ownership check compares `order.customer.toString()` — the rendering of
the whole embedded subdocument — with the caller's id string, exactly as
the source does. -/
def cancelOrder (o : Order) (customerId : String) (reason : String)
    (drv : Option Driver) : Except Err (Order × Option Driver) :=
  if customerToString o.customer ≠ customerId then .error .notAuthorizedCancel
  else if ¬ isCancellable o then .error .notCancellable
  else
    let o' := { o with
      deliveryStatus := DeliveryStatus.failed
      cancellationReason := some reason
      cancelledBy := some "customer"
      cancellationTimeSet := true }
    let drv' :=
      if o.deliveryDriver.isSome then drv.map fun d => { d with isAvailable := true }
      else drv
    .ok (o', drv')

/-- JavaScript truthiness of an optional numeric field (`undefined` and `0`
are falsy). -/
def truthyNum : Option Int → Bool
  | some v => v != 0
  | none => false

/-- Embedding of the controller `submitOrderRating` (POST `/:id/rating`).
Rating inputs are integers with `0` standing for an absent (falsy) value,
mirroring the JavaScript truthiness tests; `feedback` is a string with
`""` falsy. -/
def submitOrderRating (o : Order) (customerId : String)
    (rating driverRating venueRating : Int) (feedback : String) :
    Except Err Order :=
  if rating ≠ 0 ∧ (rating < 1 ∨ rating > 5) then .error .invalidRating
  else if driverRating ≠ 0 ∧ (driverRating < 1 ∨ driverRating > 5) then .error .invalidRating
  else if venueRating ≠ 0 ∧ (venueRating < 1 ∨ venueRating > 5) then .error .invalidRating
  else if customerToString o.customer ≠ customerId then .error .notAuthorizedRate
  else if o.deliveryStatus ≠ .delivered then .error .notDelivered
  else if truthyNum o.rating then .error .alreadyRated
  else .ok { o with
    rating := if rating ≠ 0 then some rating else o.rating
    feedback := if feedback ≠ "" then some feedback else o.feedback
    driverRating := if driverRating ≠ 0 then some driverRating else o.driverRating
    venueRating := if venueRating ≠ 0 then some venueRating else o.venueRating }

/-- Stripe webhook events handled by `handleFoodDeliveryStripeWebhook`. -/
inductive WebhookEvent
  | paymentIntentCreated
  | paymentIntentSucceeded
  | paymentIntentFailed
  | chargeRefunded
  | other
deriving DecidableEq

/-- Effect of `handleFoodDeliveryStripeWebhook` on the referenced order:
each handled event issues an unconditional `findOneAndUpdate` on the
order's payment and delivery status (`payment_intent.created` only creates
a payment document). -/
def applyWebhookToOrder : WebhookEvent → Order → Order
  | .paymentIntentSucceeded, o =>
    { o with paymentStatus := .paid, deliveryStatus := .preparing }
  | .paymentIntentFailed, o =>
    { o with paymentStatus := .failed, deliveryStatus := .failed }
  | .chargeRefunded, o =>
    { o with paymentStatus := .refunded, deliveryStatus := .failed }
  | _, o => o

/-!
Concrete fixtures used by witnesses and counterexamples.
-/

/-- Pending, paid order without a driver. -/
def exOrderPending : Order where
  customer := ⟨"64a0c0ffee0123456789abcd", "Alice", "alice@example.com", "555-0100"⟩
  venue := "64b1c0ffee0123456789abce"
  deliveryStatus := .pending
  paymentStatus := .paid
  deliveryDriver := none
  trackingUpdates := []
  rating := none
  feedback := none
  driverRating := none
  venueRating := none
  cancellationReason := none
  cancelledBy := none
  cancellationTimeSet := false
  actualDeliveryTimeSet := false
  isDeleted := false

/-- Ready, paid order without a driver. -/
def exOrderReady : Order :=
  { exOrderPending with deliveryStatus := .ready }

/-- Dispatched, paid order with an assigned driver. -/
def exOrderDispatched : Order :=
  { exOrderPending with
      deliveryStatus := .dispatched
      deliveryDriver := some "64c2c0ffee0123456789abcf" }

/-- Delivered, paid order with an assigned driver. -/
def exOrderDelivered : Order :=
  { exOrderPending with
      deliveryStatus := .delivered
      deliveryDriver := some "64c2c0ffee0123456789abcf"
      actualDeliveryTimeSet := true }

/-- Available, on-duty, active driver. -/
def exDriverFree : Driver where
  id := "64c2c0ffee0123456789abcf"
  isAvailable := true
  isOnDuty := true
  status := "active"
  completedDeliveries := 0
  currentLocation := none

/-- The same driver while assigned to an order (`isAvailable = false`). -/
def exDriverBusy : Driver :=
  { exDriverFree with
      isAvailable := false
      completedDeliveries := 3 }

/-!
Characterizations of the success paths of the operations.
-/

lemma locUpdate_isAvailable (l : Option Coord) (drv : Option Driver) :
    (locUpdate l drv).map Driver.isAvailable = drv.map Driver.isAvailable := by
  cases l <;> cases drv <;> rfl

lemma updateOrderStatus_ok_spec {o : Order} {s : DeliveryStatus} {a : Actor}
    {n : String} {l : Option Coord} {drv : Option Driver}
    {res : Order × Option Driver}
    (h : updateOrderStatus o s a n l drv = .ok res) :
    res.1.deliveryStatus = s ∧ s ∈ validTransitions o.deliveryStatus := by
  cases a <;>
    · simp only [updateOrderStatus] at h
      split_ifs at h
      all_goals first
        | exact Except.noConfusion h
        | (injection h with h'
           subst h'
           exact ⟨rfl, by assumption⟩)

lemma updateOrderStatus_failed_isAvailable {o : Order} {a : Actor}
    {n : String} {l : Option Coord} {drv : Option Driver}
    {res : Order × Option Driver}
    (h : updateOrderStatus o .failed a n l drv = .ok res) :
    res.2.map Driver.isAvailable = drv.map Driver.isAvailable := by
  cases a <;>
    · simp only [updateOrderStatus] at h
      split_ifs at h
      all_goals first
        | exact Except.noConfusion h
        | (injection h with h'
           subst h'
           simp [applyStatusUpdate, locUpdate_isAvailable])

lemma methodUpdateStatus_ok_spec {o : Order} {s : DeliveryStatus}
    {u n : String} {l : Option Coord} {o' : Order}
    (h : methodUpdateStatus o s u n l = .ok o') :
    o'.deliveryStatus = s ∧ s ∈ validTransitions o.deliveryStatus := by
  simp only [methodUpdateStatus] at h
  split_ifs at h
  all_goals first
    | exact Except.noConfusion h
    | (injection h with h'
       subst h'
       exact ⟨rfl, by assumption⟩)

lemma assignDriverToOrder_ok_spec {o : Order} {d : Driver} {own : Bool}
    {res : Order × Driver}
    (h : assignDriverToOrder o d own = .ok res) :
    o.deliveryStatus = .ready ∧
    res.1 = { o with deliveryDriver := some d.id, deliveryStatus := .dispatched } ∧
    res.2 = { d with isAvailable := false } := by
  simp only [assignDriverToOrder] at h
  split_ifs at h
  all_goals first
    | exact Except.noConfusion h
    | (injection h with h'
       subst h'
       exact ⟨not_not.mp (by assumption), rfl, rfl⟩)

lemma cancelOrder_ok_spec {o : Order} {c r : String} {drv : Option Driver}
    {res : Order × Option Driver}
    (h : cancelOrder o c r drv = .ok res) :
    customerToString o.customer = c ∧ isCancellable o ∧
    res.1 = { o with
        deliveryStatus := DeliveryStatus.failed
        cancellationReason := some r
        cancelledBy := some "customer"
        cancellationTimeSet := true } ∧
    res.2 = (if o.deliveryDriver.isSome then
      drv.map (fun d => { d with isAvailable := true }) else drv) := by
  simp only [cancelOrder] at h
  split_ifs at h
  all_goals first
    | exact Except.noConfusion h
    | (injection h with h'
       subst h'
       refine ⟨not_not.mp (by assumption), by assumption, rfl, ?_⟩
       split <;> simp_all)

/-- C1 counterexample: a `payment_intent.succeeded` webhook event moves a
delivered — terminal — order back to `preparing`, an edge outside the §4.2
table, so webhook events do change terminal orders. -/
theorem webhook_overrides_terminal_status :
    exOrderDelivered.deliveryStatus = DeliveryStatus.delivered ∧
    (applyWebhookToOrder .paymentIntentSucceeded exOrderDelivered).deliveryStatus =
      DeliveryStatus.preparing ∧
    DeliveryStatus.preparing ∉ validTransitions DeliveryStatus.delivered :=
  ⟨rfl, rfl, by decide⟩

/-- C1 amended: under the status-update operations (controller and schema
method), driver assignment and customer cancellation, `deliveryStatus`
only moves along the §4.2 edges — in particular `delivered` and `failed`
are terminal for those operations — but the payment-webhook handler sets
`deliveryStatus` unconditionally: `payment_intent.succeeded` forces
`preparing` and `payment_intent.payment_failed` / `charge.refunded` force
`failed` from any current status, including the terminal ones. -/
theorem statusMachine_edges_and_webhook_override :
    (∀ (o : Order) (s : DeliveryStatus) (a : Actor) (n : String) (l : Option Coord)
        (drv : Option Driver) (res : Order × Option Driver),
      updateOrderStatus o s a n l drv = .ok res →
        res.1.deliveryStatus ∈ validTransitions o.deliveryStatus) ∧
    (∀ (o : Order) (s : DeliveryStatus) (u n : String) (l : Option Coord) (o' : Order),
      methodUpdateStatus o s u n l = .ok o' →
        o'.deliveryStatus ∈ validTransitions o.deliveryStatus) ∧
    (∀ (o : Order) (d : Driver) (own : Bool) (res : Order × Driver),
      assignDriverToOrder o d own = .ok res →
        o.deliveryStatus = .ready ∧ res.1.deliveryStatus = .dispatched) ∧
    (∀ (o : Order) (c r : String) (drv : Option Driver) (res : Order × Option Driver),
      cancelOrder o c r drv = .ok res →
        o.deliveryStatus ≠ .delivered ∧ o.deliveryStatus ≠ .failed ∧
          res.1.deliveryStatus = .failed) ∧
    (∀ o : Order,
      (applyWebhookToOrder .paymentIntentSucceeded o).deliveryStatus = .preparing ∧
      (applyWebhookToOrder .paymentIntentFailed o).deliveryStatus = .failed ∧
      (applyWebhookToOrder .chargeRefunded o).deliveryStatus = .failed) := by
  refine ⟨?_, ?_, ?_, ?_, ?_⟩
  · intro o s a n l drv res h
    obtain ⟨h1, h2⟩ := updateOrderStatus_ok_spec h
    rw [h1]; exact h2
  · intro o s u n l o' h
    obtain ⟨h1, h2⟩ := methodUpdateStatus_ok_spec h
    rw [h1]; exact h2
  · intro o d own res h
    obtain ⟨h1, h2, _⟩ := assignDriverToOrder_ok_spec h
    exact ⟨h1, by rw [h2]⟩
  · intro o c r drv res h
    obtain ⟨_, hc, h1, _⟩ := cancelOrder_ok_spec h
    exact ⟨hc.2.1, hc.2.2.1, by rw [h1]⟩
  · intro o
    exact ⟨rfl, rfl, rfl⟩

/-- Result of the sample successful transition used by the C1 witness:
a venue owner moves the pending, paid order to `preparing`. -/
def exPendingRes : Order × Option Driver :=
  ({ exOrderPending with
      deliveryStatus := .preparing
      trackingUpdates := [⟨.preparing, "", none, "venue"⟩] }, none)

/-- C1 witness: the edge property instantiated on a concrete successful
business-owner transition `pending → preparing`. -/
theorem statusMachine_edges_and_webhook_override_witness :
    updateOrderStatus exOrderPending .preparing (.businessOwner true) "" none none =
      .ok exPendingRes ∧
    exPendingRes.1.deliveryStatus ∈ validTransitions exOrderPending.deliveryStatus :=
  ⟨rfl, statusMachine_edges_and_webhook_override.1 exOrderPending .preparing
    (.businessOwner true) "" none none exPendingRes rfl⟩

/-- C2 counterexample: a concrete successful driver assignment (order
`ready`, driver available and on duty, caller owns the venue) sets
`dispatched` and books the driver but appends no tracking entry: the
order's `trackingUpdates` is as empty after the call as before. -/
theorem assignDriver_appends_no_tracking :
    exOrderReady.trackingUpdates.length = 0 ∧
    (assignDriverToOrder exOrderReady exDriverFree true).map
        (fun p => (p.1.deliveryStatus, p.1.trackingUpdates.length, p.2.isAvailable)) =
      .ok (DeliveryStatus.dispatched, 0, false) :=
  ⟨rfl, rfl⟩

/-- C2 amended: for a caller that owns the order's venue, driver
assignment rejects with `OrderNotReady` whenever the order is not `ready`,
and on success it atomically sets `driverId`, moves the order to
`dispatched` and sets the driver's `isAvailable` to `false` — but it
appends no tracking entry (`trackingUpdates` is unchanged). -/
theorem assignDriver_rejects_and_success_effects :
    (∀ (o : Order) (d : Driver), o.deliveryStatus ≠ .ready →
      assignDriverToOrder o d true = .error .orderNotReady) ∧
    (∀ (o : Order) (d : Driver) (res : Order × Driver),
      assignDriverToOrder o d true = .ok res →
        res.1.deliveryDriver = some d.id ∧ res.1.deliveryStatus = .dispatched ∧
        res.2.isAvailable = false ∧ res.1.trackingUpdates = o.trackingUpdates) := by
  constructor
  · intro o d hs
    simp [assignDriverToOrder, hs]
  · intro o d res h
    obtain ⟨_, h1, h2⟩ := assignDriverToOrder_ok_spec h
    rw [h1, h2]
    exact ⟨rfl, rfl, rfl, rfl⟩

/-- C2 witness: the rejection instantiated on a pending order, and the
success effects instantiated on the concrete assignment of the
counterexample input. -/
theorem assignDriver_rejects_and_success_effects_witness :
    assignDriverToOrder exOrderPending exDriverFree true = .error .orderNotReady ∧
    (assignDriverToOrder exOrderReady exDriverFree true =
      .ok ({ exOrderReady with
              deliveryDriver := some "64c2c0ffee0123456789abcf"
              deliveryStatus := .dispatched },
            { exDriverFree with isAvailable := false }) ∧
      ({ exOrderReady with
          deliveryDriver := some "64c2c0ffee0123456789abcf"
          deliveryStatus := .dispatched } : Order).trackingUpdates =
        exOrderReady.trackingUpdates) :=
  ⟨assignDriver_rejects_and_success_effects.1 exOrderPending exDriverFree (by decide),
    rfl,
    (assignDriver_rejects_and_success_effects.2 exOrderReady exDriverFree _ rfl).2.2.2⟩

/-- Boolean success test for `Except` results. -/
def exceptOk {ε α : Type} : Except ε α → Bool
  | .ok _ => true
  | .error _ => false

/-- C4 counterexample: on a delivered, paid order, the assigned driver's
request for `in_transit` is rejected by the driver role gate (a 403), not
by the `InvalidTransition` check — the terminal order is left unchanged
but the error is not `InvalidTransition`. -/
theorem terminal_update_error_not_invalidTransition :
    updateOrderStatus exOrderDelivered .in_transit
        (.driver "64c2c0ffee0123456789abcf") "" none none = .error .driverGate ∧
    Err.driverGate ≠ Err.invalidTransition :=
  ⟨rfl, by decide⟩

/-- C4 amended: once `deliveryStatus` is `delivered` or `failed`, every
`UpdateStatus` request fails (the transaction is rolled back, so the order
is unchanged); the error is `InvalidTransition` when the request passes
the payment and role gates — e.g. a venue owner requesting `failed` —
but other requests are rejected earlier with the payment or
role-authorization errors. -/
theorem terminal_updateStatus_always_fails :
    (∀ (o : Order) (s : DeliveryStatus) (a : Actor) (n : String) (l : Option Coord)
        (drv : Option Driver),
      (o.deliveryStatus = .delivered ∨ o.deliveryStatus = .failed) →
        exceptOk (updateOrderStatus o s a n l drv) = false) ∧
    (∀ (o : Order) (n : String) (l : Option Coord) (drv : Option Driver),
      (o.deliveryStatus = .delivered ∨ o.deliveryStatus = .failed) →
        updateOrderStatus o .failed (.businessOwner true) n l drv =
          .error .invalidTransition) := by
  constructor
  · intro o s a n l drv ht
    cases hres : updateOrderStatus o s a n l drv with
    | ok res =>
      have hmem := (updateOrderStatus_ok_spec hres).2
      rcases ht with h | h <;> rw [h] at hmem <;> simp [validTransitions] at hmem
    | error e => rfl
  · intro o n l drv ht
    rcases ht with h | h <;> simp [updateOrderStatus, h, validTransitions]

/-- C4 witness: both parts instantiated on the concrete delivered order. -/
theorem terminal_updateStatus_always_fails_witness :
    exceptOk (updateOrderStatus exOrderDelivered .preparing
      (.businessOwner true) "" none none) = false ∧
    updateOrderStatus exOrderDelivered .failed (.businessOwner true) "" none none =
      .error .invalidTransition :=
  ⟨terminal_updateStatus_always_fails.1 exOrderDelivered .preparing
      (.businessOwner true) "" none none (Or.inl rfl),
    terminal_updateStatus_always_fails.2 exOrderDelivered "" none none (Or.inl rfl)⟩

/-- C7 counterexample: the assigned driver successfully moves a dispatched,
paid order to `failed`, yet the driver's record is untouched —
`isAvailable` stays `false` instead of being set to `true`. -/
theorem failed_transition_keeps_driver_unavailable :
    exDriverBusy.isAvailable = false ∧
    (updateOrderStatus exOrderDispatched .failed
        (.driver "64c2c0ffee0123456789abcf") "" none (some exDriverBusy)).map
        (fun p => p.2.map Driver.isAvailable) = .ok (some false) :=
  ⟨rfl, rfl⟩

/-- C7 amended: a successful customer cancellation (`cancelOrder`) sets an
assigned driver's `isAvailable` to `true`, but a successful `UpdateStatus`
transition to `failed` leaves every driver record's `isAvailable`
unchanged — only the `delivered` branch of `updateOrderStatus` frees the
driver. -/
theorem driver_freed_on_cancel_only :
    (∀ (o : Order) (c r : String) (d : Driver) (res : Order × Option Driver),
      o.deliveryDriver.isSome = true →
      cancelOrder o c r (some d) = .ok res →
        res.2.map Driver.isAvailable = some true) ∧
    (∀ (o : Order) (a : Actor) (n : String) (l : Option Coord) (drv : Option Driver)
        (res : Order × Option Driver),
      updateOrderStatus o .failed a n l drv = .ok res →
        res.2.map Driver.isAvailable = drv.map Driver.isAvailable) := by
  constructor
  · intro o c r d res hds h
    obtain ⟨_, _, _, h2⟩ := cancelOrder_ok_spec h
    rw [h2, if_pos hds]
    rfl
  · intro o a n l drv res h
    exact updateOrderStatus_failed_isAvailable h

/-- C7 witness: a concrete customer cancellation of the dispatched order
frees the busy driver, and the concrete failed transition of the
counterexample leaves the driver map unchanged. -/
theorem driver_freed_on_cancel_only_witness :
    cancelOrder exOrderDispatched (customerToString exOrderDispatched.customer)
        "changed my mind" (some exDriverBusy) =
      .ok ({ exOrderDispatched with
              deliveryStatus := DeliveryStatus.failed
              cancellationReason := some "changed my mind"
              cancelledBy := some "customer"
              cancellationTimeSet := true },
            some { exDriverBusy with isAvailable := true }) ∧
    (some { exDriverBusy with isAvailable := true } : Option Driver).map
        Driver.isAvailable = some true :=
  ⟨rfl,
    driver_freed_on_cancel_only.1 exOrderDispatched
      (customerToString exOrderDispatched.customer) "changed my mind" exDriverBusy
      _ rfl rfl⟩

/-- Delivered, paid order carrying a driver rating from an earlier rating
call but no overall `rating`. -/
def exOrderPartlyRated : Order :=
  { exOrderDelivered with driverRating := some 4 }

/-- Delivered, paid order whose overall `rating` is set. -/
def exOrderFullyRated : Order :=
  { exOrderDelivered with rating := some 3 }

/-- C8 counterexample: an order already carrying `driverRating = 4` from a
prior rating call accepts a second rating request, which overwrites
`driverRating` with 5 — so a set rating field is neither immutable nor does
it cause an `AlreadyRated` rejection. -/
theorem second_rating_overwrites_driverRating :
    exOrderPartlyRated.driverRating = some 4 ∧
    (submitOrderRating exOrderPartlyRated
        (customerToString exOrderPartlyRated.customer) 0 5 0 "").map
        Order.driverRating = .ok (some 5) :=
  ⟨rfl, rfl⟩

/-- C8 amended: only the overall `rating` field gates re-rating. Once
`rating` is set (truthy), every further `RateOrder` request fails — with
`AlreadyRated` when the payload is well-formed, the caller passes the
ownership comparison and the order is delivered — so no rating field
changes; but `driverRating`/`venueRating` alone do not block further
calls (see the counterexample). -/
theorem rating_gates_rerating :
    (∀ (o : Order) (c : String) (r dr vr : Int) (fb : String)
        (res : Order),
      truthyNum o.rating = true →
      submitOrderRating o c r dr vr fb ≠ .ok res) ∧
    (∀ (o : Order) (r dr vr : Int) (fb : String),
      truthyNum o.rating = true →
      (r = 0 ∨ (1 ≤ r ∧ r ≤ 5)) →
      (dr = 0 ∨ (1 ≤ dr ∧ dr ≤ 5)) →
      (vr = 0 ∨ (1 ≤ vr ∧ vr ≤ 5)) →
      o.deliveryStatus = .delivered →
      submitOrderRating o (customerToString o.customer) r dr vr fb =
        .error .alreadyRated) := by
  constructor
  · intro o c r dr vr fb res ht h
    simp only [submitOrderRating] at h
    split_ifs at h
  · intro o r dr vr fb ht hr hdr hvr hd
    have h1 : ¬(r ≠ 0 ∧ (r < 1 ∨ r > 5)) := by rcases hr with h | h <;> omega
    have h2 : ¬(dr ≠ 0 ∧ (dr < 1 ∨ dr > 5)) := by rcases hdr with h | h <;> omega
    have h3 : ¬(vr ≠ 0 ∧ (vr < 1 ∨ vr > 5)) := by rcases hvr with h | h <;> omega
    simp only [submitOrderRating, h1, h2, h3, hd, ht]
    simp

/-- C8 witness: the `AlreadyRated` rejection instantiated on the concrete
fully rated order. -/
theorem rating_gates_rerating_witness :
    truthyNum exOrderFullyRated.rating = true ∧
    submitOrderRating exOrderFullyRated
        (customerToString exOrderFullyRated.customer) 0 0 0 "" =
      .error .alreadyRated :=
  ⟨rfl, rating_gates_rerating.2 exOrderFullyRated 0 0 0 "" rfl
    (Or.inl rfl) (Or.inl rfl) (Or.inl rfl) rfl⟩

/-- Hexadecimal digit (lowercase), the alphabet of a Mongo ObjectId's
string form. -/
def isHexChar (ch : Char) : Bool :=
  (48 ≤ ch.toNat && ch.toNat ≤ 57) || (97 ≤ ch.toNat && ch.toNat ≤ 102)

/-- String form of a Mongo ObjectId: exactly 24 lowercase hex digits. -/
def isObjectIdHex (s : String) : Bool :=
  (s.length == 24) && s.data.all isHexChar

lemma customerToString_head (c : CustomerRec) :
    ∃ l, (customerToString c).data = Char.ofNat 123 :: l := by
  refine ⟨(" _id: new ObjectId(" ++ c.id ++ "), name: " ++ c.name ++
    ", email: " ++ c.email ++ ", phone: " ++ c.phone ++ " \x7d").data, ?_⟩
  rw [customerToString, String.data_append]
  rfl

/-- The rendering of the embedded customer subdocument starts with a brace,
so it is never equal to an ObjectId hex string. -/
lemma customerToString_ne_hex {c : CustomerRec} {s : String}
    (h : isObjectIdHex s = true) : customerToString c ≠ s := by
  intro heq
  obtain ⟨l, hl⟩ := customerToString_head c
  have hall : s.data.all isHexChar = true := by
    simp only [isObjectIdHex, Bool.and_eq_true] at h
    exact h.2
  rw [← heq, hl] at hall
  simp only [List.all_cons, Bool.and_eq_true] at hall
  exact absurd hall.1 (by decide)

/-- C9: the ownership checks of `cancelOrder` and `submitOrderRating`
compare the string form of the whole embedded customer record — not
`customer._id` — with the caller's id (an ObjectId hex string), so for
every order, every caller, and every well-formed rating payload both
operations reject with their not-authorized error. Creation
(`createFoodDeliveryOrder`) stores `customer` as the embedded record
`{_id, name, email, phone}` modelled by `CustomerRec`. -/
theorem ownership_checks_reject_all_callers :
    ∀ (o : Order) (caller reason : String) (drv : Option Driver)
      (r dr vr : Int) (fb : String),
      isObjectIdHex caller = true →
      (r = 0 ∨ (1 ≤ r ∧ r ≤ 5)) →
      (dr = 0 ∨ (1 ≤ dr ∧ dr ≤ 5)) →
      (vr = 0 ∨ (1 ≤ vr ∧ vr ≤ 5)) →
      cancelOrder o caller reason drv = .error .notAuthorizedCancel ∧
      submitOrderRating o caller r dr vr fb = .error .notAuthorizedRate := by
  intro o caller reason drv r dr vr fb hhex hr hdr hvr
  have hne : customerToString o.customer ≠ caller := customerToString_ne_hex hhex
  constructor
  · simp only [cancelOrder, if_pos hne]
  · have h1 : ¬(r ≠ 0 ∧ (r < 1 ∨ r > 5)) := by rcases hr with h | h <;> omega
    have h2 : ¬(dr ≠ 0 ∧ (dr < 1 ∨ dr > 5)) := by rcases hdr with h | h <;> omega
    have h3 : ¬(vr ≠ 0 ∧ (vr < 1 ∨ vr > 5)) := by rcases hvr with h | h <;> omega
    simp only [submitOrderRating, h1, h2, h3, if_false, if_pos hne]

/-- C9 witness: the customer who placed the pending order — the caller id
is exactly the embedded record's `_id` — is rejected by both operations. -/
theorem ownership_checks_reject_all_callers_witness :
    exOrderPending.customer.id = "64a0c0ffee0123456789abcd" ∧
    cancelOrder exOrderPending "64a0c0ffee0123456789abcd" "wrong item" none =
      .error .notAuthorizedCancel ∧
    submitOrderRating exOrderPending "64a0c0ffee0123456789abcd" 0 0 0 "" =
      .error .notAuthorizedRate :=
  ⟨rfl,
    (ownership_checks_reject_all_callers exOrderPending "64a0c0ffee0123456789abcd"
      "wrong item" none 0 0 0 "" (by decide)
      (Or.inl rfl) (Or.inl rfl) (Or.inl rfl)).1,
    (ownership_checks_reject_all_callers exOrderPending "64a0c0ffee0123456789abcd"
      "wrong item" none 0 0 0 "" (by decide)
      (Or.inl rfl) (Or.inl rfl) (Or.inl rfl)).2⟩

/-- Payment methods accepted by `createFoodDeliveryOrder`'s input
validation (`validPaymentMethods` in the controller). -/
def validPaymentMethods : List String :=
  ["credit_card", "debit_card", "paypal", "stripe", "cash_on_delivery",
    "wallet", "razorpay"]

/-- The `paymentMethod` enum of the order schema. -/
def paymentMethodEnum : List String :=
  ["credit_card", "paypal", "stripe", "razorpay", "esewa", "cash-on-delivery"]

/-- Failure modes of creation as far as the payment method is concerned. -/
inductive CreateErr
  | invalidPaymentMethod
  | schemaValidation
deriving DecidableEq

/-- Payment-method handling along order creation: the controller's list
check, then mongoose enum validation when `FoodDelivery.create` persists
the document. -/
def createOrderPaymentCheck (m : String) : Except CreateErr Unit :=
  if m ∉ validPaymentMethods then .error .invalidPaymentMethod
  else if m ∉ paymentMethodEnum then .error .schemaValidation
  else .ok ()

/-- C10: the controller's accepted payment methods are not a subset of the
schema enum; `debit_card`, `wallet` and `cash_on_delivery` pass the
controller's validation and are then rejected by schema validation, so
creation fails for these advertised payment methods. -/
theorem paymentMethods_mismatch :
    (¬ ∀ m ∈ validPaymentMethods, m ∈ paymentMethodEnum) ∧
    "debit_card" ∈ validPaymentMethods ∧ "debit_card" ∉ paymentMethodEnum ∧
    "wallet" ∈ validPaymentMethods ∧ "wallet" ∉ paymentMethodEnum ∧
    "cash_on_delivery" ∈ validPaymentMethods ∧
      "cash_on_delivery" ∉ paymentMethodEnum ∧
    createOrderPaymentCheck "debit_card" = .error .schemaValidation ∧
    createOrderPaymentCheck "wallet" = .error .schemaValidation ∧
    createOrderPaymentCheck "cash_on_delivery" = .error .schemaValidation := by
  refine ⟨by decide, by decide, by decide, by decide, by decide, by decide, by decide,
    rfl, rfl, rfl⟩

/-!
JavaScript value semantics for the schema method `calculateTotals`.

`totalAmount` is assigned the JavaScript evaluation of
`this.subtotal + this.deliveryFee + this.tax + this.tip - discountAmount`,
where `this.deliveryFee` is the whole fee subdocument. Adding a number to
an object string-concatenates (the object converts to its `toString`
rendering); subtracting a number from a non-numeric string yields `NaN`.
-/

/-- JavaScript runtime values arising in `calculateTotals`: numbers,
non-numeric results (`NaN`), and strings; an object enters the arithmetic
as the string its `ToPrimitive`/`toString` conversion yields. -/
inductive JSVal
  | num (q : ℚ)
  | str (s : String)
  | nan
deriving DecidableEq

/-- Rendering of a rational for JavaScript number-to-string conversion.
JavaScript prints decimally; only the fact that the digits contain no
brace matters below, so the `num/den` form is used. -/
def ratStr (q : ℚ) : String := toString q.num ++ "/" ++ toString q.den

/-- Digit character. -/
def isDigitChar (ch : Char) : Bool := 48 ≤ ch.toNat && ch.toNat ≤ 57

/-- Numeric value of a digit string. -/
def digitsVal (l : List Char) : ℕ :=
  l.foldl (fun a ch => a * 10 + (ch.toNat - 48)) 0

/-- Split a character list at the first `.`; the remainder (if any) is the
fraction part. -/
def splitAtDot : List Char → List Char × Option (List Char)
  | [] => ([], none)
  | ch :: cs =>
    if ch = Char.ofNat 46 then ([], some cs)
    else
      let p := splitAtDot cs
      (ch :: p.1, p.2)

/-- JavaScript `ToNumber` on a string, restricted to the decimal forms
(optional sign, digits, optional fraction) that matter here; JavaScript
first trims whitespace, which is the identity on every string this model
builds. A malformed string yields `none`, that is `NaN`. -/
def jsStrToNumber (s : String) : Option ℚ :=
  match s.data with
  | [] => some 0
  | ch :: cs =>
    let body := if ch = Char.ofNat 45 ∨ ch = Char.ofNat 43 then cs else ch :: cs
    let sign : ℚ := if ch = Char.ofNat 45 then -1 else 1
    match splitAtDot body with
    | (ip, none) =>
      if ip ≠ [] ∧ ip.all isDigitChar then some (sign * digitsVal ip) else none
    | (ip, some fp) =>
      if (ip ≠ [] ∨ fp ≠ []) ∧ ip.all isDigitChar ∧ fp.all isDigitChar then
        some (sign * ((digitsVal ip : ℚ) + (digitsVal fp : ℚ) / (10 : ℚ) ^ fp.length))
      else none

/-- JavaScript `ToNumber`; `none` is `NaN`. -/
def jsToNumber : JSVal → Option ℚ
  | .num q => some q
  | .str s => jsStrToNumber s
  | .nan => none

/-- JavaScript binary `+`: numeric addition unless a string is involved,
in which case both sides convert to strings and concatenate. -/
def jsAdd : JSVal → JSVal → JSVal
  | .num a, .num b => .num (a + b)
  | .num a, .str s => .str (ratStr a ++ s)
  | .str s, .num b => .str (s ++ ratStr b)
  | .str s, .str t => .str (s ++ t)
  | .nan, .num _ => .nan
  | .num _, .nan => .nan
  | .nan, .str s => .str ("NaN" ++ s)
  | .str s, .nan => .str (s ++ "NaN")
  | .nan, .nan => .nan

/-- JavaScript binary `-`: both sides convert to numbers; a failed
conversion gives `NaN`. -/
def jsSub (a b : JSVal) : JSVal :=
  match jsToNumber a, jsToNumber b with
  | some x, some y => .num (x - y)
  | _, _ => .nan

/-- The `toString` rendering of the `deliveryFee` subdocument: a
brace-wrapped field listing (mongoose inspect output; the precise field
text is immaterial, only the leading brace is used). -/
def feeSubdocToString (f : FeeBreakdown) : String :=
  "\x7b" ++ (" base: " ++ ratStr f.base ++ ", distanceFee: " ++ ratStr f.distanceFee ++
    ", surgeFee: " ++ ratStr f.surgeFee ++ ", smallOrderFee: " ++ ratStr f.smallOrderFee ++
    ", serviceFee: " ++ ratStr f.serviceFee ++ ", handlingFee: " ++ ratStr f.handlingFee ++
    ", zoneFee: " ++ ratStr f.zoneFee ++ ", total: " ++ ratStr f.total ++ " \x7d")

/-- Order item as read by `calculateTotals`: price, quantity, and the
`additionalCost` of each option. -/
structure OrderItem where
  price : ℚ
  quantity : ℚ
  options : List ℚ
deriving DecidableEq

/-- The order's optional `discount` subdocument; `dtype` is the source's
`type` field (`"percentage"` or `"fixed"`). -/
structure DiscountRec where
  amount : ℚ
  dtype : String
deriving DecidableEq

/-- Embedding of the schema method `calculateTotals` of
`foodDelivery.models.js`, run by the pre-save hook whenever `items` is
modified (including on creation). Returns the recomputed `subtotal` and
the value assigned to `totalAmount`; the latter is the JavaScript
evaluation of `this.subtotal + this.deliveryFee + this.tax + this.tip -
discountAmount` in which `this.deliveryFee` is the whole subdocument. -/
def calculateTotals (items : List OrderItem) (deliveryFee : FeeBreakdown)
    (tax tip : ℚ) (discount : Option DiscountRec) : ℚ × JSVal :=
  let subtotal := items.foldl
    (fun sum item => sum + item.price * item.quantity + item.options.foldl (· + ·) 0) 0
  let discountAmount : ℚ :=
    match discount with
    | some d => if d.dtype = "percentage" then subtotal * (d.amount / 100) else d.amount
    | none => 0
  let totalAmount :=
    jsSub (jsAdd (jsAdd (jsAdd (.num subtotal) (.str (feeSubdocToString deliveryFee)))
      (.num tax)) (.num tip)) (.num discountAmount)
  (subtotal, totalAmount)

lemma splitAtDot_mem {l : List Char} {x : Char} (hx : x ∈ l)
    (hnd : x ≠ Char.ofNat 46) :
    x ∈ (splitAtDot l).1 ∨ ∃ fp, (splitAtDot l).2 = some fp ∧ x ∈ fp := by
  induction l with
  | nil => cases hx
  | cons ch cs ih =>
    by_cases hch : ch = Char.ofNat 46
    · simp only [splitAtDot, if_pos hch]
      rcases List.mem_cons.mp hx with h | h
      · exact absurd (h.trans hch) hnd
      · exact Or.inr ⟨cs, rfl, h⟩
    · simp only [splitAtDot, if_neg hch]
      rcases List.mem_cons.mp hx with h | h
      · exact Or.inl (h ▸ List.mem_cons_self _ _)
      · rcases ih h with h' | ⟨fp, hfp, hm⟩
        · exact Or.inl (List.mem_cons_of_mem _ h')
        · exact Or.inr ⟨fp, hfp, hm⟩

lemma all_false_of_mem {l : List Char} {p : Char → Bool} {x : Char}
    (hx : x ∈ l) (hp : p x = false) : l.all p = false := by
  rw [List.all_eq_false]
  exact ⟨x, hx, by simp [hp]⟩

lemma jsStrToNumber_brace_none {s : String}
    (h : Char.ofNat 123 ∈ s.data) : jsStrToNumber s = none := by
  rcases hd : s.data with _ | ⟨ch, cs⟩
  · rw [hd] at h; cases h
  · rw [hd] at h
    have hbody : Char.ofNat 123 ∈
        (if ch = Char.ofNat 45 ∨ ch = Char.ofNat 43 then cs else ch :: cs) := by
      split
      · rcases List.mem_cons.mp h with h' | h'
        · rename_i hsgn
          rcases hsgn with h45 | h43
          · rw [h45] at h'; exact absurd h' (by decide)
          · rw [h43] at h'; exact absurd h' (by decide)
        · exact h'
      · exact h
    simp only [jsStrToNumber, hd]
    rcases hsp : splitAtDot (if ch = Char.ofNat 45 ∨ ch = Char.ofNat 43
        then cs else ch :: cs) with ⟨ip, fpo⟩
    rcases splitAtDot_mem hbody (by decide) with hin | ⟨fp, hfp, hin⟩
    · rw [hsp] at hin
      simp only at hin
      have hip : ip.all isDigitChar = false := all_false_of_mem hin (by decide)
      cases fpo <;> simp [hsp, hip]
    · rw [hsp] at hfp
      simp only at hfp
      subst hfp
      have hfpall : fp.all isDigitChar = false := all_false_of_mem hin (by decide)
      simp [hsp, hfpall]

lemma jsSub_str_nan {S : String} (hS : Char.ofNat 123 ∈ S.data) (d : ℚ) :
    jsSub (.str S) (.num d) = .nan := by
  simp [jsSub, jsToNumber, jsStrToNumber_brace_none hS]

lemma brace_mem_feeSubdocToString (f : FeeBreakdown) :
    Char.ofNat 123 ∈ (feeSubdocToString f).data := by
  rw [feeSubdocToString, String.data_append]
  exact List.mem_append.mpr (Or.inl (by decide))

lemma brace_mem_append3 (a c e : String) (f : FeeBreakdown) :
    Char.ofNat 123 ∈ (a ++ feeSubdocToString f ++ c ++ e).data := by
  simp only [String.data_append, List.mem_append]
  exact Or.inl (Or.inl (Or.inr (brace_mem_feeSubdocToString f)))

/-- The scenario-1 fee breakdown as stored on an order (`total = 12`). -/
def exFeeBreakdown : FeeBreakdown where
  base := 5
  distanceFee := 3
  surgeFee := 0
  smallOrderFee := 2
  serviceFee := 1
  handlingFee := 1
  zoneFee := 0
  currency := "USD"
  discount := 0
  isFree := false
  breakdown := []
  total := 12

/-- C3: the recomputation path violates the invariant. `calculateTotals`
adds the whole `deliveryFee` subdocument — not `deliveryFee.total` — so
JavaScript string-concatenates and the final subtraction yields `NaN` for
every input; in particular a one-item order (price 10, quantity 1) with
fee total 12, tax 1, tip 0 and no discount gets `NaN` as `totalAmount`
instead of `subtotal + feeBreakdown.total + tax + tip - discount = 23`. -/
theorem calculateTotals_totalAmount_is_nan :
    (∀ (items : List OrderItem) (deliveryFee : FeeBreakdown) (tax tip : ℚ)
        (discount : Option DiscountRec),
      (calculateTotals items deliveryFee tax tip discount).2 = JSVal.nan) ∧
    (calculateTotals [⟨10, 1, []⟩] exFeeBreakdown 1 0 none).1 = 10 ∧
    (10 : ℚ) + exFeeBreakdown.total + 1 + 0 - 0 = 23 ∧
    (calculateTotals [⟨10, 1, []⟩] exFeeBreakdown 1 0 none).2 ≠ JSVal.num 23 := by
  have hgen : ∀ (items : List OrderItem) (f : FeeBreakdown) (tax tip : ℚ)
      (disc : Option DiscountRec), (calculateTotals items f tax tip disc).2 = JSVal.nan := by
    intro items f tax tip disc
    simp only [calculateTotals, jsAdd]
    exact jsSub_str_nan (brace_mem_append3 _ _ _ f) _
  refine ⟨hgen, ?_, ?_, ?_⟩
  · simp only [calculateTotals, List.foldl_cons, List.foldl_nil]
    norm_num
  · show (10 : ℚ) + (12 : ℚ) + 1 + 0 - 0 = 23
    norm_num
  · rw [hgen]
    intro hcontra
    exact JSVal.noConfusion hcontra
